import Mathlib

/-!
# Verification of the ARTIST rigid-body kinematic

Shallow embedding of `artist/field/kinematic_rigid_body.py` (class `RigidBody`,
methods `__init__`, `align`, `align_surface`).

The numeric domain is `ℝ`; vectors are homogeneous 4-vectors (`Fin 4 → ℝ`,
coordinates E, N, U, w) and orientations are 4×4 real matrices, matching the
tensors of shape `(4,)` and `(1, 4, 4)` used in the source (the internal batch
dimension of `align` is always 1, because the initial actuator-step tensor is
created with shape `(1, 2)`, so we embed a single batch element).

Helper operations of the repository that are not part of the embedded file
(`artist.util.utils.rotate_e/rotate_n/rotate_u/translate_enu` and the actuator
collaborator) are modelled from the spec, as noted in their doc comments.
-/

noncomputable section

open Classical

/-- Homogeneous 4-vector over ℝ: coordinates (E, N, U, w). -/
abbrev Vec4 := Fin 4 → ℝ

/-- 4×4 homogeneous transform matrix over ℝ. -/
abbrev Mat4 := Matrix (Fin 4) (Fin 4) ℝ

/-- Modelled from the spec: `utils.rotate_e`, "a single-angle rotation about
the E axis" as a homogeneous 4×4 matrix (the repository file defining it is
not part of the embedded source). -/
def rotate_e (a : ℝ) : Mat4 :=
  !![1, 0, 0, 0;
     0, Real.cos a, -Real.sin a, 0;
     0, Real.sin a, Real.cos a, 0;
     0, 0, 0, 1]

/-- Modelled from the spec: `utils.rotate_n`, a single-angle rotation about
the N axis. -/
def rotate_n (a : ℝ) : Mat4 :=
  !![Real.cos a, 0, Real.sin a, 0;
     0, 1, 0, 0;
     -Real.sin a, 0, Real.cos a, 0;
     0, 0, 0, 1]

/-- Modelled from the spec: `utils.rotate_u`, a single-angle rotation about
the U axis. -/
def rotate_u (a : ℝ) : Mat4 :=
  !![Real.cos a, -Real.sin a, 0, 0;
     Real.sin a, Real.cos a, 0, 0;
     0, 0, 1, 0;
     0, 0, 0, 1]

/-- Modelled from the spec: `utils.translate_enu`, the homogeneous translation
by `(e, n, u)`. -/
def translate_enu (e n u : ℝ) : Mat4 :=
  !![1, 0, 0, e;
     0, 1, 0, n;
     0, 0, 1, u;
     0, 0, 0, 1]

/-- Modelled from the spec: two-argument arctangent with the convention of
`torch.arctan2` (in particular `atan2 0 0 = 0`). -/
def atan2 (y x : ℝ) : ℝ :=
  if 0 < x then Real.arctan (y / x)
  else if x < 0 then
    if 0 ≤ y then Real.arctan (y / x) + Real.pi
    else Real.arctan (y / x) - Real.pi
  else
    if 0 < y then Real.pi / 2
    else if y < 0 then -(Real.pi / 2)
    else 0

/-- Modelled from the spec: the actuator collaborator, consumed by `align`
only through `angle_from_position` (the actuator's forward call,
`actuator(actuator_pos=...)`) and `position_from_angle`
(`angles_to_motor_steps`). -/
structure Actuator where
  motor_steps_to_angles : ℝ → ℝ
  angles_to_motor_steps : ℝ → ℝ

instance : Inhabited Actuator := ⟨⟨fun a => a, fun a => a⟩⟩

/-- The 18 deviation parameters of `KinematicDeviations`, as read by
`RigidBody.align` (field names from the source). -/
structure KinematicDeviations where
  first_joint_translation_e : ℝ
  first_joint_translation_n : ℝ
  first_joint_translation_u : ℝ
  first_joint_tilt_e : ℝ
  first_joint_tilt_n : ℝ
  first_joint_tilt_u : ℝ
  second_joint_translation_e : ℝ
  second_joint_translation_n : ℝ
  second_joint_translation_u : ℝ
  second_joint_tilt_e : ℝ
  second_joint_tilt_n : ℝ
  second_joint_tilt_u : ℝ
  concentrator_translation_e : ℝ
  concentrator_translation_n : ℝ
  concentrator_translation_u : ℝ
  concentrator_tilt_e : ℝ
  concentrator_tilt_n : ℝ
  concentrator_tilt_u : ℝ

/-- The three orientation offsets of `KinematicOffsets`. -/
structure KinematicOffsets where
  kinematic_initial_orientation_offset_e : ℝ
  kinematic_initial_orientation_offset_n : ℝ
  kinematic_initial_orientation_offset_u : ℝ

/-- The rigid-body kinematic: position, aim point, actuator list, offsets and
deviation parameters (`RigidBody`, lines 42–113). -/
structure RigidBody where
  position : Vec4
  aim_point : Vec4
  actuators : List Actuator
  initial_orientation_offsets : KinematicOffsets
  deviation_parameters : KinematicDeviations

/-- `self.actuators.actuator_list[i]`. -/
def RigidBody.act (k : RigidBody) (i : Nat) : Actuator :=
  k.actuators.getD i default

/-- The per-iteration mutable state of the `align` loop: the two actuator
steps (`actuator_steps`, initially zero), the caller's incident-ray tensor
(mutated in place by the loop), `last_iteration_loss` and `orientation`
(both initially Python `None`). -/
structure LoopState where
  steps1 : ℝ
  steps2 : ℝ
  ray : Vec4
  lastLoss : Option Vec4
  orientation : Option Mat4

/-- The state at loop entry: zero actuator steps, the caller's ray,
no previous loss, no orientation. -/
def initLoopState (d : Vec4) : LoopState :=
  ⟨0, 0, d, none, none⟩

/-- Euclidean norm of a 4-vector (`torch.Tensor.norm()` on a `(1,4)` tensor). -/
def norm4 (v : Vec4) : ℝ :=
  Real.sqrt (∑ i, v i ^ 2)

/-- Division of a vector by its own norm (`v /= v.norm()`). -/
def normalizeVec (v : Vec4) : Vec4 :=
  fun i => v i / norm4 v

/-- Joint-1 angle of the current round: `actuator_list[0](actuator_steps[:, 0])`
(lines 149–151). -/
def RigidBody.roundJoint1Angle (k : RigidBody) (s : LoopState) : ℝ :=
  (k.act 0).motor_steps_to_angles s.steps1

/-- Joint-2 angle of the current round: `actuator_list[1](actuator_steps[:, 1])`
(lines 152–154). -/
def RigidBody.roundJoint2Angle (k : RigidBody) (s : LoopState) : ℝ :=
  (k.act 1).motor_steps_to_angles s.steps2

/-- The forward transform chain of one round (lines 156–211): identity,
translation by the position, the joint-1 stage, the joint-2 stage, then the
concentrator translation. -/
def RigidBody.roundOrientation (k : RigidBody) (s : LoopState) : Mat4 :=
  (1 : Mat4)
    * translate_enu (k.position 0) (k.position 1) (k.position 2)
    * (rotate_n k.deviation_parameters.first_joint_tilt_n
        * rotate_u k.deviation_parameters.first_joint_tilt_u
        * translate_enu k.deviation_parameters.first_joint_translation_e
            k.deviation_parameters.first_joint_translation_n
            k.deviation_parameters.first_joint_translation_u
        * rotate_e (k.roundJoint1Angle s))
    * (rotate_e k.deviation_parameters.second_joint_tilt_e
        * rotate_n k.deviation_parameters.second_joint_tilt_n
        * translate_enu k.deviation_parameters.second_joint_translation_e
            k.deviation_parameters.second_joint_translation_n
            k.deviation_parameters.second_joint_translation_u
        * rotate_u (k.roundJoint2Angle s))
    * translate_enu k.deviation_parameters.concentrator_translation_e
        k.deviation_parameters.concentrator_translation_n
        k.deviation_parameters.concentrator_translation_u

/-- `concentrator_normals = orientation @ [0, -1, 0, 0]` (lines 213–215). -/
def RigidBody.roundNormal (k : RigidBody) (s : LoopState) : Vec4 :=
  (k.roundOrientation s).mulVec ![0, -1, 0, 0]

/-- `concentrator_origins = orientation @ [0, 0, 0, 1]` (lines 216–218). -/
def RigidBody.roundOrigin (k : RigidBody) (s : LoopState) : Vec4 :=
  (k.roundOrientation s).mulVec ![0, 0, 0, 1]

/-- `desired_reflect_vec = aim_point - concentrator_origins`, then divided by
its norm (lines 221–222). -/
def RigidBody.roundReflect (k : RigidBody) (s : LoopState) : Vec4 :=
  normalizeVec (k.aim_point - k.roundOrigin s)

/-- The incident ray after the in-place normalization
`incident_ray_direction /= incident_ray_direction.norm()` (line 223). -/
def LoopState.roundRay (s : LoopState) : Vec4 :=
  normalizeVec s.ray

/-- `desired_concentrator_normal`, the normalized half-vector of the
normalized incident ray and the reflect vector (lines 224–225). -/
def RigidBody.roundDesired (k : RigidBody) (s : LoopState) : Vec4 :=
  normalizeVec (s.roundRay + k.roundReflect s)

/-- `loss = abs(desired_concentrator_normal - concentrator_normals)`
(line 228), elementwise over the four components. -/
def RigidBody.roundLoss (k : RigidBody) (s : LoopState) : Vec4 :=
  fun i => |k.roundDesired s i - k.roundNormal s i|

/-- The early-exit test of lines 231–234: on rounds with a previous loss,
`torch.any(abs(last_iteration_loss - loss) <= min_eps)`; on the first round
(previous loss `None`) no test is made. -/
def RigidBody.roundBreak (k : RigidBody) (minEps : ℝ) (s : LoopState) : Bool :=
  match s.lastLoss with
  | some ll => decide (∃ i, |ll i - k.roundLoss s i| ≤ minEps)
  | none => false

/-- The analytic inverse solve and conversion back to actuator steps
(lines 237–281): joint-2 angle by arcsine, coefficients `a`, `b`, joint-1
angle by `arctan2`, then `angles_to_motor_steps` on each. -/
def RigidBody.roundNextSteps (k : RigidBody) (s : LoopState) : ℝ × ℝ :=
  let m := k.roundDesired s
  let j2 := -Real.arcsin
    (-(m 0) / Real.cos k.deviation_parameters.second_joint_translation_n)
  let a := -Real.cos k.deviation_parameters.second_joint_translation_e
      * Real.cos j2
    + Real.sin k.deviation_parameters.second_joint_translation_e
      * Real.sin k.deviation_parameters.second_joint_translation_n
      * Real.sin j2
  let b := -Real.sin k.deviation_parameters.second_joint_translation_e
      * Real.cos j2
    - Real.cos k.deviation_parameters.second_joint_translation_e
      * Real.sin k.deviation_parameters.second_joint_translation_n
      * Real.sin j2
  let j1 := atan2 (a * -(m 2) - b * -(m 1)) (a * -(m 1) + b * -(m 2))
    - Real.pi
  ((k.act 0).angles_to_motor_steps j1, (k.act 1).angles_to_motor_steps j2)

/-- One round of the `align` loop body (lines 148–281), returning the state
after the round together with `true` when the round ended in `break`.
In both cases the round has already overwritten the incident ray in place and
stored the freshly computed orientation; on `break` neither
`last_iteration_loss` nor the actuator steps are updated. -/
def RigidBody.alignRound (k : RigidBody) (minEps : ℝ) (s : LoopState) :
    LoopState × Bool :=
  if k.roundBreak minEps s then
    ({ s with ray := s.roundRay, orientation := some (k.roundOrientation s) },
      true)
  else
    ({ steps1 := (k.roundNextSteps s).1,
       steps2 := (k.roundNextSteps s).2,
       ray := s.roundRay,
       lastLoss := some (k.roundLoss s),
       orientation := some (k.roundOrientation s) },
      false)

/-- The bounded loop `for _ in range(max_num_iterations)` with early exit. -/
def RigidBody.alignLoop (k : RigidBody) (minEps : ℝ) :
    Nat → LoopState → LoopState
  | 0, s => s
  | n + 1, s =>
    let r := k.alignRound minEps s
    if r.2 then r.1 else k.alignLoop minEps n r.1

/-- The full loop of `align` starting from zeroed actuator steps. -/
def RigidBody.alignRun (k : RigidBody) (d : Vec4) (maxIter : Nat)
    (minEps : ℝ) : LoopState :=
  k.alignLoop minEps maxIter (initLoopState d)

/-- Number of loop rounds actually executed by `alignLoop` (each round of the
`for` body counts once, including a round that ends in `break`). -/
def RigidBody.alignLoopCount (k : RigidBody) (minEps : ℝ) :
    Nat → LoopState → Nat
  | 0, _ => 0
  | n + 1, s =>
    let r := k.alignRound minEps s
    if r.2 then 1 else 1 + k.alignLoopCount minEps n r.1

/-- The state-part of one round, used to describe the trajectory of the loop. -/
def RigidBody.roundState (k : RigidBody) (minEps : ℝ) (s : LoopState) :
    LoopState :=
  (k.alignRound minEps s).1

/-- The post-loop offset correction (lines 284–313): post-multiplication by a
rotation about E, then N, then U, each by the corresponding initial
orientation offset. -/
def RigidBody.offsetRotation (k : RigidBody) : Mat4 :=
  rotate_e k.initial_orientation_offsets.kinematic_initial_orientation_offset_e
    * rotate_n
        k.initial_orientation_offsets.kinematic_initial_orientation_offset_n
    * rotate_u
        k.initial_orientation_offsets.kinematic_initial_orientation_offset_u

/-- The two failure modes of `align`: the `assert` on the actuator count
(line 141), and the `TypeError` raised by `None @ ...` when the loop body
never ran (`max_num_iterations = 0` leaves `orientation = None`). -/
inductive AlignError where
  | preconditionError
  | missingOrientation
  deriving DecidableEq

/-- `RigidBody.align` (lines 115–313): assert exactly two actuators, run the
fixed-point loop, then post-multiply the last orientation by the offset
rotations. -/
def RigidBody.align (k : RigidBody) (d : Vec4) (maxIter : Nat) (minEps : ℝ) :
    Except AlignError Mat4 :=
  if k.actuators.length = 2 then
    match (k.alignRun d maxIter minEps).orientation with
    | some o => .ok (o * k.offsetRotation)
    | none => .error .missingOrientation
  else
    .error .preconditionError

/-- `RigidBody.align_surface` (lines 315–354): one `align` call with the
default `max_num_iterations = 2` and `min_eps = 0.0001`, then the same 4×4
transform applied to every surface point and every surface normal. -/
def RigidBody.align_surface (k : RigidBody) (d : Vec4)
    (surface_points surface_normals : List Vec4) :
    Except AlignError (List Vec4 × List Vec4) :=
  (k.align d 2 (1 / 10000)).map fun o =>
    (surface_points.map o.mulVec, surface_normals.map o.mulVec)

/-- The caller-visible arguments of one `align` call (the ray is the
caller-owned tensor; the iteration bound and epsilon are immutable Python
scalars). -/
structure AlignArgs where
  incident_ray_direction : Vec4
  max_num_iterations : Nat
  min_eps : ℝ

/-- The argument record as the caller sees it after the `align` call returns:
only the incident-ray tensor has been written through (line 223); every other
argument is left untouched. -/
def RigidBody.alignArgsAfter (k : RigidBody) (args : AlignArgs) : AlignArgs :=
  { args with incident_ray_direction :=
      (k.alignRun args.incident_ray_direction args.max_num_iterations
        args.min_eps).ray }

/-- A tensor as stored on a device: numeric value plus device tag;
`PyTensor.to` models `torch.Tensor.to(device)`. -/
structure PyTensor where
  val : ℝ
  device : String

/-- `torch.Tensor.to(device)`: a copy of the tensor on the given device. -/
def PyTensor.to (t : PyTensor) (device : String) : PyTensor :=
  ⟨t.val, device⟩

/-- The `KinematicDeviations` object as a Python object whose 18 tensor-valued
attributes can be reassigned (`__init__`, lines 99–102). -/
structure KinematicDeviationsObj where
  first_joint_translation_e : PyTensor
  first_joint_translation_n : PyTensor
  first_joint_translation_u : PyTensor
  first_joint_tilt_e : PyTensor
  first_joint_tilt_n : PyTensor
  first_joint_tilt_u : PyTensor
  second_joint_translation_e : PyTensor
  second_joint_translation_n : PyTensor
  second_joint_translation_u : PyTensor
  second_joint_tilt_e : PyTensor
  second_joint_tilt_n : PyTensor
  second_joint_tilt_u : PyTensor
  concentrator_translation_e : PyTensor
  concentrator_translation_n : PyTensor
  concentrator_translation_u : PyTensor
  concentrator_tilt_e : PyTensor
  concentrator_tilt_n : PyTensor
  concentrator_tilt_u : PyTensor

/-- The `KinematicOffsets` object with its 3 tensor-valued attributes
(`__init__`, lines 104–109). -/
structure KinematicOffsetsObj where
  kinematic_initial_orientation_offset_e : PyTensor
  kinematic_initial_orientation_offset_n : PyTensor
  kinematic_initial_orientation_offset_u : PyTensor

/-- The `setattr` loop of lines 100–102: every tensor-valued attribute of the
deviation object is replaced by its device-moved copy. -/
def KinematicDeviationsObj.toDevice (o : KinematicDeviationsObj)
    (device : String) : KinematicDeviationsObj :=
  ⟨o.first_joint_translation_e.to device,
   o.first_joint_translation_n.to device,
   o.first_joint_translation_u.to device,
   o.first_joint_tilt_e.to device,
   o.first_joint_tilt_n.to device,
   o.first_joint_tilt_u.to device,
   o.second_joint_translation_e.to device,
   o.second_joint_translation_n.to device,
   o.second_joint_translation_u.to device,
   o.second_joint_tilt_e.to device,
   o.second_joint_tilt_n.to device,
   o.second_joint_tilt_u.to device,
   o.concentrator_translation_e.to device,
   o.concentrator_translation_n.to device,
   o.concentrator_translation_u.to device,
   o.concentrator_tilt_e.to device,
   o.concentrator_tilt_n.to device,
   o.concentrator_tilt_u.to device⟩

/-- The `setattr` loop of lines 105–109 on the offsets object. -/
def KinematicOffsetsObj.toDevice (o : KinematicOffsetsObj)
    (device : String) : KinematicOffsetsObj :=
  ⟨o.kinematic_initial_orientation_offset_e.to device,
   o.kinematic_initial_orientation_offset_n.to device,
   o.kinematic_initial_orientation_offset_u.to device⟩

/-- Heap of Python objects of the two parameter classes, addressed by `Nat`:
object identity (aliasing) is address equality. -/
structure InitHeap where
  deviations : Nat → KinematicDeviationsObj
  offsets : Nat → KinematicOffsetsObj

/-- The address of the default `KinematicDeviations(...)` of lines 52–71:
Python evaluates default-argument expressions once, at function-definition
time, so every call omitting the argument receives this one object. -/
def defaultDeviationsAddr : Nat := 0

/-- The address of the default `KinematicOffsets(...)` of lines 47–51,
likewise created once at function-definition time. -/
def defaultOffsetsAddr : Nat := 0

/-- `RigidBody.__init__` (lines 42–113) as a heap transformer: resolve the
two parameter arguments (defaults when omitted), then run the two `setattr`
loops, mutating the referenced objects in place.  Returns the new heap and
the addresses the constructed instance holds on to. -/
def RigidBody.init (h : InitHeap) (deviation_arg offsets_arg : Option Nat)
    (device : String) : InitHeap × Nat × Nat :=
  let da := deviation_arg.getD defaultDeviationsAddr
  let oa := offsets_arg.getD defaultOffsetsAddr
  ({ deviations :=
       Function.update h.deviations da ((h.deviations da).toDevice device),
     offsets :=
       Function.update h.offsets oa ((h.offsets oa).toDevice device) },
   da, oa)

/-- Rotation about E by angle 0 is the identity. -/
lemma rotate_e_zero : rotate_e 0 = 1 := by
  ext i j
  fin_cases i <;> fin_cases j <;>
    simp [rotate_e, Matrix.one_apply, Matrix.vecHead, Matrix.vecTail]

/-- Rotation about N by angle 0 is the identity. -/
lemma rotate_n_zero : rotate_n 0 = 1 := by
  ext i j
  fin_cases i <;> fin_cases j <;>
    simp [rotate_n, Matrix.one_apply, Matrix.vecHead, Matrix.vecTail]

/-- Rotation about U by angle 0 is the identity. -/
lemma rotate_u_zero : rotate_u 0 = 1 := by
  ext i j
  fin_cases i <;> fin_cases j <;>
    simp [rotate_u, Matrix.one_apply, Matrix.vecHead, Matrix.vecTail]

/-- Translation by (0, 0, 0) is the identity. -/
lemma translate_enu_zero : translate_enu 0 0 0 = 1 := by
  ext i j
  fin_cases i <;> fin_cases j <;>
    simp [translate_enu, Matrix.one_apply, Matrix.vecHead, Matrix.vecTail]

/-- A nonzero 4-vector has positive sum of squares. -/
lemma sum_sq_pos {v : Vec4} (h : v ≠ 0) : 0 < ∑ i, v i ^ 2 := by
  obtain ⟨i, hi⟩ : ∃ i, v i ≠ 0 := by
    by_contra hc
    push_neg at hc
    exact h (funext hc)
  exact Finset.sum_pos' (fun j _ => sq_nonneg _)
    ⟨i, Finset.mem_univ i, by positivity⟩

/-- A nonzero 4-vector has positive norm. -/
lemma norm4_pos {v : Vec4} (h : v ≠ 0) : 0 < norm4 v :=
  Real.sqrt_pos.mpr (sum_sq_pos h)

/-- Normalizing a nonzero vector yields a unit vector. -/
lemma norm4_normalizeVec {v : Vec4} (h : v ≠ 0) : norm4 (normalizeVec v) = 1 := by
  have hS := sum_sq_pos h
  have hsq : norm4 v ^ 2 = ∑ i, v i ^ 2 := Real.sq_sqrt hS.le
  have hsum : ∑ i, normalizeVec v i ^ 2 = 1 := by
    simp only [normalizeVec, div_pow, ← Finset.sum_div]
    rw [hsq, div_self hS.ne']
  rw [norm4, hsum, Real.sqrt_one]

/-- Normalizing a vector that already has norm 1 leaves it unchanged. -/
lemma normalizeVec_of_norm_one {v : Vec4} (h : norm4 v = 1) :
    normalizeVec v = v :=
  funext fun i => by simp [normalizeVec, h]

/-- Normalizing the zero vector divides by zero; with the real-arithmetic
convention `x / 0 = 0` the result is the zero vector (in the float semantics
of the source this is the `0/0 = NaN` case). -/
lemma normalizeVec_zero : normalizeVec 0 = 0 :=
  funext fun i => by simp [normalizeVec]

/-- Normalization as rescaling by the inverse norm. -/
lemma normalizeVec_eq_smul (v : Vec4) :
    normalizeVec v = (norm4 v)⁻¹ • v :=
  funext fun i => by
    simp [normalizeVec, div_eq_inv_mul]

/-- Every executed round overwrites the ray with its normalization,
whether or not the round ends in `break`. -/
lemma alignRound_ray (k : RigidBody) (minEps : ℝ) (s : LoopState) :
    (k.alignRound minEps s).1.ray = normalizeVec s.ray := by
  unfold RigidBody.alignRound
  split <;> rfl

/-- Once the ray holds the normalization of the original input, every further
round leaves it fixed (dividing a unit vector by its norm 1). -/
lemma alignLoop_ray (k : RigidBody) (minEps : ℝ) {d : Vec4} (hd : d ≠ 0) :
    ∀ (n : Nat) (s : LoopState), s.ray = normalizeVec d →
      (k.alignLoop minEps n s).ray = normalizeVec d := by
  intro n
  induction n with
  | zero => intro s hs; exact hs
  | succ m ih =>
    intro s hs
    have hround : (k.alignRound minEps s).1.ray = normalizeVec d := by
      rw [alignRound_ray, hs,
        normalizeVec_of_norm_one (norm4_normalizeVec hd)]
    unfold RigidBody.alignLoop
    by_cases hb : (k.alignRound minEps s).2
    · simp only [hb, if_true]
      exact hround
    · simp only [hb, Bool.false_eq_true, if_false]
      exact ih _ hround

/-- After any `align` loop that runs at least one round on a nonzero ray, the
caller's tensor holds the normalization of its original value. -/
lemma alignRun_ray (k : RigidBody) (minEps : ℝ) {d : Vec4} (hd : d ≠ 0)
    {n : Nat} (hn : 1 ≤ n) :
    (k.alignRun d n minEps).ray = normalizeVec d := by
  obtain ⟨m, rfl⟩ : ∃ m, n = m + 1 := ⟨n - 1, by omega⟩
  unfold RigidBody.alignRun RigidBody.alignLoop
  have hround : (k.alignRound minEps (initLoopState d)).1.ray
      = normalizeVec d := by
    rw [alignRound_ray]
    rfl
  by_cases hb : (k.alignRound minEps (initLoopState d)).2
  · simp only [hb, if_true]
    exact hround
  · simp only [hb, Bool.false_eq_true, if_false]
    exact alignLoop_ray k minEps hd m _ hround

/-- The actuator with `angle == position` in both directions, used by the
spec's concrete scenario. -/
def idActuator : Actuator :=
  ⟨fun a => a, fun a => a⟩

/-- The spec's concrete scenario kinematic: position `(0,0,0)`, aim point
`(0,100,0)` (homogeneous points with `w = 1`), two identity actuators, all
deviation parameters and orientation offsets zero. -/
def K9 : RigidBody where
  position := ![0, 0, 0, 1]
  aim_point := ![0, 100, 0, 1]
  actuators := [idActuator, idActuator]
  initial_orientation_offsets := ⟨0, 0, 0⟩
  deviation_parameters :=
    ⟨0, 0, 0, 0, 0, 0, 0, 0, 0, 0, 0, 0, 0, 0, 0, 0, 0, 0⟩

/-- The scenario's incident ray `(0, -1, 0)` as a homogeneous direction. -/
def d9 : Vec4 := ![0, -1, 0, 0]

/-- The loop state entering the scenario's first round. -/
def S9 : LoopState := initLoopState d9

/-- A misconfigured kinematic holding a single actuator. -/
def K1 : RigidBody :=
  { K9 with actuators := [idActuator] }

/-- In the scenario, the first round's forward chain is the identity: all
deviations are zero, the position is the origin, and the identity actuators
turn the zero steps into zero joint angles. -/
lemma K9_roundOrientation (d : Vec4) :
    K9.roundOrientation (initLoopState d) = 1 := by
  have h1 : K9.roundJoint1Angle (initLoopState d) = 0 := rfl
  have h2 : K9.roundJoint2Angle (initLoopState d) = 0 := rfl
  rw [RigidBody.roundOrientation, h1, h2]
  show (1 : Mat4) * translate_enu 0 0 0
      * (rotate_n 0 * rotate_u 0 * translate_enu 0 0 0 * rotate_e 0)
      * (rotate_e 0 * rotate_n 0 * translate_enu 0 0 0 * rotate_u 0)
      * translate_enu 0 0 0 = 1
  rw [rotate_e_zero, rotate_n_zero, rotate_u_zero, translate_enu_zero]
  simp

/-- In the scenario, the first round's mirror origin is the world origin. -/
lemma K9_roundOrigin (d : Vec4) :
    K9.roundOrigin (initLoopState d) = ![0, 0, 0, 1] := by
  rw [RigidBody.roundOrigin, K9_roundOrientation, Matrix.one_mulVec]

/-- In the scenario, the first round's mirror normal is `(0, -1, 0, 0)`. -/
lemma K9_roundNormal (d : Vec4) :
    K9.roundNormal (initLoopState d) = ![0, -1, 0, 0] := by
  rw [RigidBody.roundNormal, K9_roundOrientation, Matrix.one_mulVec]

/-- The norm of the un-normalized reflect vector `(0, 100, 0, 0)` is 100. -/
lemma norm4_reflect : norm4 ![0, (100 : ℝ), 0, 0] = 100 := by
  rw [norm4, Fin.sum_univ_four]
  norm_num [Matrix.vecHead, Matrix.vecTail]
  rw [show (10000 : ℝ) = 100 ^ 2 by norm_num,
    Real.sqrt_sq (by norm_num : (0 : ℝ) ≤ 100)]

/-- In the scenario, the first round's reflect vector is the unit north
vector. -/
lemma K9_roundReflect (d : Vec4) :
    K9.roundReflect (initLoopState d) = ![0, 1, 0, 0] := by
  rw [RigidBody.roundReflect, K9_roundOrigin]
  have hdiff : K9.aim_point - ![0, 0, 0, 1] = ![0, (100 : ℝ), 0, 0] := by
    funext i
    fin_cases i <;>
      simp [K9, Matrix.vecHead, Matrix.vecTail]
  rw [hdiff]
  funext i
  rw [normalizeVec, norm4_reflect]
  fin_cases i <;> norm_num [Matrix.vecHead, Matrix.vecTail]

/-- The scenario's incident ray is already a unit vector. -/
lemma norm4_d9 : norm4 d9 = 1 := by
  rw [d9, norm4, Fin.sum_univ_four]
  norm_num [Matrix.vecHead, Matrix.vecTail]

/-- The in-place normalization of the scenario's ray leaves it unchanged. -/
lemma S9_roundRay : S9.roundRay = d9 := by
  show normalizeVec d9 = d9
  exact normalizeVec_of_norm_one norm4_d9

/-- In the scenario's first round, the normalized incident ray and the
reflect vector cancel exactly: the half-vector about to be normalized is the
zero vector. -/
lemma K9_cancel : S9.roundRay + K9.roundReflect S9 = 0 := by
  rw [S9_roundRay, S9, K9_roundReflect]
  funext i
  fin_cases i <;>
    simp [d9, Matrix.vecHead, Matrix.vecTail]

/-- Hence the scenario's first-round desired normal is the zero vector (the
code divides the zero vector by its zero norm here: `0/0`, i.e. NaN in the
source's float semantics). -/
lemma K9_roundDesired : K9.roundDesired S9 = 0 := by
  rw [RigidBody.roundDesired, K9_cancel, normalizeVec_zero]

/-- `torch.arctan2(0, 0) = 0`. -/
lemma atan2_zero_zero : atan2 0 0 = 0 := by
  simp [atan2]

/-- In the scenario's first round the analytic solve returns joint-2
angle 0 (and the identity actuator stores it unchanged). -/
lemma K9_solve_j2 : (K9.roundNextSteps S9).2 = 0 := by
  rw [RigidBody.roundNextSteps]
  simp only [K9_roundDesired]
  norm_num [K9, idActuator, RigidBody.act, Real.arcsin_zero]

/-- In the scenario's first round the analytic solve returns joint-1
angle `atan2 0 0 - π = -π`. -/
lemma K9_solve_j1 : (K9.roundNextSteps S9).1 = -Real.pi := by
  rw [RigidBody.roundNextSteps]
  simp only [K9_roundDesired]
  norm_num [K9, idActuator, RigidBody.act, Real.arcsin_zero, atan2_zero_zero]

/-- Both branches of a round store the freshly built forward chain. -/
lemma alignRound_orientation (k : RigidBody) (minEps : ℝ) (s : LoopState) :
    (k.alignRound minEps s).1.orientation = some (k.roundOrientation s) := by
  unfold RigidBody.alignRound
  split <;> rfl

/-- C1: in every iteration of `align`, the orientation is the product
identity · translation-by-position · joint-1 stage (tilt-N, tilt-U, joint-1
translations, rotation by the joint-1 angle about E) · joint-2 stage (tilt-E,
tilt-N, joint-2 translations, rotation by the joint-2 angle about U) ·
concentrator translation, in that order; the mirror normal is this matrix
applied to `(0, -1, 0, 0)` and the mirror origin is this matrix applied to
`(0, 0, 0, 1)`. -/
theorem C1_forward_chain (k : RigidBody) (minEps : ℝ) (s : LoopState) :
    (k.alignRound minEps s).1.orientation
      = some ((1 : Mat4)
        * translate_enu (k.position 0) (k.position 1) (k.position 2)
        * (rotate_n k.deviation_parameters.first_joint_tilt_n
            * rotate_u k.deviation_parameters.first_joint_tilt_u
            * translate_enu k.deviation_parameters.first_joint_translation_e
                k.deviation_parameters.first_joint_translation_n
                k.deviation_parameters.first_joint_translation_u
            * rotate_e ((k.act 0).motor_steps_to_angles s.steps1))
        * (rotate_e k.deviation_parameters.second_joint_tilt_e
            * rotate_n k.deviation_parameters.second_joint_tilt_n
            * translate_enu k.deviation_parameters.second_joint_translation_e
                k.deviation_parameters.second_joint_translation_n
                k.deviation_parameters.second_joint_translation_u
            * rotate_u ((k.act 1).motor_steps_to_angles s.steps2))
        * translate_enu k.deviation_parameters.concentrator_translation_e
            k.deviation_parameters.concentrator_translation_n
            k.deviation_parameters.concentrator_translation_u)
    ∧ k.roundNormal s = (k.roundOrientation s).mulVec ![0, -1, 0, 0]
    ∧ k.roundOrigin s = (k.roundOrientation s).mulVec ![0, 0, 0, 1] := by
  refine ⟨?_, rfl, rfl⟩
  rw [alignRound_orientation]
  rfl

/-- C2: in every iteration that does not exit early, the analytic inverse
solve computes the joint-2 angle as `-arcsin(-m_E / cos(second joint
translation N))` — the divisor is the cosine of a *translation* deviation
parameter — and the joint-1 angle as `atan2(a·(-m_U) - b·(-m_N),
a·(-m_N) + b·(-m_U)) - π` with `a = -cos(te)·cos(j2) + sin(te)·sin(tn)·sin(j2)`
and `b = -sin(te)·cos(j2) - cos(te)·sin(tn)·sin(j2)`, and the next actuator
steps are these angles converted through the actuators. -/
theorem C2_inverse_solve (k : RigidBody) (minEps : ℝ) (s : LoopState)
    (h : (k.alignRound minEps s).2 = false) :
    (k.alignRound minEps s).1.steps2
      = (k.act 1).angles_to_motor_steps
          (-Real.arcsin (-(k.roundDesired s 0)
            / Real.cos k.deviation_parameters.second_joint_translation_n))
    ∧ (k.alignRound minEps s).1.steps1
      = (k.act 0).angles_to_motor_steps
          (let j2 := -Real.arcsin (-(k.roundDesired s 0)
            / Real.cos k.deviation_parameters.second_joint_translation_n)
           let a := -Real.cos k.deviation_parameters.second_joint_translation_e
              * Real.cos j2
            + Real.sin k.deviation_parameters.second_joint_translation_e
              * Real.sin k.deviation_parameters.second_joint_translation_n
              * Real.sin j2
           let b := -Real.sin k.deviation_parameters.second_joint_translation_e
              * Real.cos j2
            - Real.cos k.deviation_parameters.second_joint_translation_e
              * Real.sin k.deviation_parameters.second_joint_translation_n
              * Real.sin j2
           atan2 (a * -(k.roundDesired s 2) - b * -(k.roundDesired s 1))
             (a * -(k.roundDesired s 1) + b * -(k.roundDesired s 2))
             - Real.pi) := by
  have hb : k.roundBreak minEps s = false := by
    cases hbb : k.roundBreak minEps s
    · rfl
    · simp [RigidBody.alignRound, hbb] at h
  unfold RigidBody.alignRound
  rw [hb]
  exact ⟨rfl, rfl⟩

/-- C2 witness: the inverse-solve shape holds concretely in the scenario's
first round, which does not exit early. -/
theorem C2_witness :
    (K9.alignRound (1 / 10000) S9).1.steps2
      = (K9.act 1).angles_to_motor_steps
          (-Real.arcsin (-(K9.roundDesired S9 0)
            / Real.cos K9.deviation_parameters.second_joint_translation_n)) :=
  (C2_inverse_solve K9 (1 / 10000) S9 rfl).1

/-- C3: in every `align` call, the convergence check is skipped on the first
round (the initial state has no previous loss, and a round without a previous
loss never breaks); from the second round on, a round breaks if and only if
the elementwise absolute change of the loss against the previous round is
`≤ min_eps` in at least one component ("any", not "all"); if no round breaks,
the loop runs exactly its `max_num_iterations` rounds, and if the first break
happens in round `j + 1` the loop stops after exactly `j + 1` rounds; the
final state is the round-function iterated that many times. -/
theorem C3_convergence (k : RigidBody) (minEps : ℝ) :
    (∀ d : Vec4, (initLoopState d).lastLoss = none)
    ∧ (∀ s : LoopState, s.lastLoss = none →
        (k.alignRound minEps s).2 = false)
    ∧ (∀ (s : LoopState) (ll : Vec4), s.lastLoss = some ll →
        ((k.alignRound minEps s).2 = true
          ↔ ∃ i, |ll i - k.roundLoss s i| ≤ minEps))
    ∧ (∀ (n : Nat) (s : LoopState),
        (∀ j, j < n →
          (k.alignRound minEps ((k.roundState minEps)^[j] s)).2 = false) →
        k.alignLoopCount minEps n s = n)
    ∧ (∀ (n j : Nat) (s : LoopState), j < n →
        (∀ i, i < j →
          (k.alignRound minEps ((k.roundState minEps)^[i] s)).2 = false) →
        (k.alignRound minEps ((k.roundState minEps)^[j] s)).2 = true →
        k.alignLoopCount minEps n s = j + 1)
    ∧ (∀ (n : Nat) (s : LoopState),
        k.alignLoop minEps n s
          = (k.roundState minEps)^[k.alignLoopCount minEps n s] s) := by
  refine ⟨fun _ => rfl, ?_, ?_, ?_, ?_, ?_⟩
  · intro s h
    simp [RigidBody.alignRound, RigidBody.roundBreak, h]
  · intro s ll h
    by_cases hx : ∃ i, |ll i - k.roundLoss s i| ≤ minEps
    · simp [RigidBody.alignRound, RigidBody.roundBreak, h, hx]
    · simp [RigidBody.alignRound, RigidBody.roundBreak, h, hx]
  · intro n
    induction n with
    | zero => intro s _; rfl
    | succ m ih =>
      intro s hno
      have h0 : (k.alignRound minEps s).2 = false := by
        have := hno 0 (Nat.succ_pos m)
        rwa [Function.iterate_zero_apply] at this
      have hrest : k.alignLoopCount minEps m (k.roundState minEps s) = m := by
        apply ih
        intro j hj
        have := hno (j + 1) (Nat.succ_lt_succ hj)
        rwa [Function.iterate_succ_apply] at this
      show (if (k.alignRound minEps s).2 = true then 1
        else 1 + k.alignLoopCount minEps m (k.alignRound minEps s).1) = m + 1
      rw [h0]
      simp only [Bool.false_eq_true, if_false]
      rw [show (k.alignRound minEps s).1 = k.roundState minEps s from rfl,
        hrest]
      omega
  · intro n
    induction n with
    | zero => intro j s hj; omega
    | succ m ih =>
      intro j s hj hno hbrk
      cases j with
      | zero =>
        rw [Function.iterate_zero_apply] at hbrk
        show (if (k.alignRound minEps s).2 = true then 1
          else 1 + k.alignLoopCount minEps m (k.alignRound minEps s).1) = 0 + 1
        rw [hbrk]
        rfl
      | succ jj =>
        have h0 : (k.alignRound minEps s).2 = false := by
          have := hno 0 (Nat.succ_pos jj)
          rwa [Function.iterate_zero_apply] at this
        have hrest : k.alignLoopCount minEps m (k.roundState minEps s)
            = jj + 1 := by
          apply ih jj _ (Nat.lt_of_succ_lt_succ hj)
          · intro i hi
            have := hno (i + 1) (Nat.succ_lt_succ hi)
            rwa [Function.iterate_succ_apply] at this
          · rwa [Function.iterate_succ_apply] at hbrk
        show (if (k.alignRound minEps s).2 = true then 1
          else 1 + k.alignLoopCount minEps m (k.alignRound minEps s).1)
          = jj + 1 + 1
        rw [h0]
        simp only [Bool.false_eq_true, if_false]
        rw [show (k.alignRound minEps s).1 = k.roundState minEps s from rfl,
          hrest]
        omega
  · intro n
    induction n with
    | zero => intro s; rfl
    | succ m ih =>
      intro s
      show (if (k.alignRound minEps s).2 = true then (k.alignRound minEps s).1
          else k.alignLoop minEps m (k.alignRound minEps s).1)
        = (k.roundState minEps)^[if (k.alignRound minEps s).2 = true then 1
            else 1 + k.alignLoopCount minEps m (k.alignRound minEps s).1] s
      cases hb : (k.alignRound minEps s).2
      · simp only [Bool.false_eq_true, if_false]
        rw [ih]
        rw [show (k.alignRound minEps s).1 = k.roundState minEps s from rfl]
        rw [Nat.add_comm 1 (k.alignLoopCount minEps m (k.roundState minEps s))]
        rw [Function.iterate_succ_apply]
      · simp only [if_true]
        rfl

/-- C3 witness: the scenario's first round, whose state has no previous loss,
does not exit early. -/
theorem C3_witness : (K9.alignRound (1 / 10000) S9).2 = false :=
  (C3_convergence K9 (1 / 10000)).2.1 S9 rfl

/-- C4: with an actuator count other than two, `align` fails with the
precondition error before the loop does anything — the result is the same for
every ray and epsilon, so no forward chain or inverse solve is reached; with
exactly two actuators that precondition error is never raised. -/
theorem C4_actuator_count (k : RigidBody) (d d2 : Vec4) (n : Nat)
    (minEps minEps2 : ℝ) :
    (k.actuators.length ≠ 2 →
      k.align d n minEps = .error .preconditionError
      ∧ k.align d n minEps = k.align d2 n minEps2)
    ∧ (k.actuators.length = 2 →
      k.align d n minEps ≠ .error .preconditionError) := by
  constructor
  · intro h
    constructor
    · unfold RigidBody.align
      rw [if_neg h]
    · unfold RigidBody.align
      rw [if_neg h, if_neg h]
  · intro h
    unfold RigidBody.align
    rw [if_pos h]
    cases (k.alignRun d n minEps).orientation <;> simp

/-- C4 witness: a one-actuator configuration fails with the precondition
error. -/
theorem C4_witness :
    K1.align d9 2 (1 / 10000) = .error .preconditionError :=
  ((C4_actuator_count K1 d9 d9 2 (1 / 10000) (1 / 10000)).1
    (by simp [K1, K9])).1

/-- C5: in every iteration, the desired reflect vector is
`normalize(aim_point - origin)` and the desired mirror normal is
`normalize(normalize(d) + r)`, and (for well-posed geometry, i.e. none of the
normalized vectors is zero) each of the normalized ray, the reflect vector
and the desired normal is a unit vector. -/
theorem C5_desired_normal (k : RigidBody) (s : LoopState)
    (h1 : k.aim_point - k.roundOrigin s ≠ 0)
    (h2 : s.roundRay + k.roundReflect s ≠ 0)
    (h3 : s.ray ≠ 0) :
    k.roundReflect s = normalizeVec (k.aim_point - k.roundOrigin s)
    ∧ k.roundDesired s = normalizeVec (normalizeVec s.ray + k.roundReflect s)
    ∧ norm4 s.roundRay = 1
    ∧ norm4 (k.roundReflect s) = 1
    ∧ norm4 (k.roundDesired s) = 1 :=
  ⟨rfl, rfl, norm4_normalizeVec h3, norm4_normalizeVec h1,
    norm4_normalizeVec h2⟩

/-- A well-posed incident ray for witnesses: straight down, `(0, 0, -1, 0)`. -/
def d5 : Vec4 := ![0, 0, -1, 0]

/-- The downward ray is a unit vector. -/
lemma norm4_d5 : norm4 d5 = 1 := by
  rw [d5, norm4, Fin.sum_univ_four]
  norm_num [Matrix.vecHead, Matrix.vecTail]

/-- The downward ray is nonzero. -/
lemma d5_ne_zero : d5 ≠ 0 := by
  intro hcontra
  have hx := congrFun hcontra 2
  norm_num [d5, Matrix.vecHead, Matrix.vecTail] at hx

/-- C5 witness: the unit-norm conclusion holds concretely in the scenario
kinematic with the well-posed downward ray. -/
theorem C5_witness :
    norm4 (K9.roundDesired (initLoopState d5)) = 1 :=
  (C5_desired_normal K9 (initLoopState d5)
    (by
      rw [K9_roundOrigin]
      intro hcontra
      have hx := congrFun hcontra 1
      norm_num [K9, Pi.sub_apply, Matrix.vecHead, Matrix.vecTail] at hx)
    (by
      rw [show (initLoopState d5).roundRay = d5 from
        normalizeVec_of_norm_one norm4_d5, K9_roundReflect d5]
      intro hcontra
      have hx := congrFun hcontra 1
      norm_num [d5, Pi.add_apply, Matrix.vecHead, Matrix.vecTail] at hx)
    d5_ne_zero).2.2.2.2

/-- C6: any completed `align` call (at least one loop round) on a nonzero
incident ray leaves the caller's ray tensor overwritten with the rescaled
(normalized) version of itself; the other arguments are untouched; and the
call made by `align_surface` (default two iterations) does the same. -/
theorem C6_ray_mutation (k : RigidBody) (d : Vec4) (n : Nat) (eps : ℝ)
    (hn : 1 ≤ n) (hd : d ≠ 0) :
    (k.alignArgsAfter ⟨d, n, eps⟩).incident_ray_direction = (norm4 d)⁻¹ • d
    ∧ (k.alignArgsAfter ⟨d, n, eps⟩).max_num_iterations = n
    ∧ (k.alignArgsAfter ⟨d, n, eps⟩).min_eps = eps
    ∧ (k.alignRun d 2 (1 / 10000)).ray = (norm4 d)⁻¹ • d := by
  refine ⟨?_, rfl, rfl, ?_⟩
  · show (k.alignRun d n eps).ray = (norm4 d)⁻¹ • d
    rw [alignRun_ray k eps hd hn, normalizeVec_eq_smul]
  · rw [alignRun_ray k (1 / 10000) hd (by norm_num), normalizeVec_eq_smul]

/-- C6 witness: concretely, after an `align` call on the scenario kinematic
with the downward ray, the caller's tensor holds the normalized ray. -/
theorem C6_witness :
    (K9.alignArgsAfter ⟨d5, 2, 1 / 10000⟩).incident_ray_direction
      = (norm4 d5)⁻¹ • d5 :=
  (C6_ray_mutation K9 d5 2 (1 / 10000) (by norm_num) d5_ne_zero).1

/-- C7: `align` returns the loop's last orientation post-multiplied (once,
outside the loop) by the rotation about E, then N, then U built from the
orientation offsets; when all three offsets are zero, the returned
orientation equals the loop's last orientation exactly. -/
theorem C7_zero_offsets (k : RigidBody) (d : Vec4) (n : Nat) (eps : ℝ)
    (o : Mat4) (hlen : k.actuators.length = 2)
    (ho : (k.alignRun d n eps).orientation = some o) :
    k.align d n eps = .ok (o
      * (rotate_e
          k.initial_orientation_offsets.kinematic_initial_orientation_offset_e
        * rotate_n
          k.initial_orientation_offsets.kinematic_initial_orientation_offset_n
        * rotate_u
          k.initial_orientation_offsets.kinematic_initial_orientation_offset_u))
    ∧ (k.initial_orientation_offsets.kinematic_initial_orientation_offset_e = 0 →
       k.initial_orientation_offsets.kinematic_initial_orientation_offset_n = 0 →
       k.initial_orientation_offsets.kinematic_initial_orientation_offset_u = 0 →
       k.align d n eps = .ok o) := by
  have hmain : k.align d n eps = .ok (o * k.offsetRotation) := by
    unfold RigidBody.align
    rw [if_pos hlen, ho]
  constructor
  · exact hmain
  · intro hE hN hU
    rw [hmain, RigidBody.offsetRotation, hE, hN, hU, rotate_e_zero,
      rotate_n_zero, rotate_u_zero]
    simp

/-- C7 witness: a one-round run of the scenario returns exactly the loop's
orientation, since all offsets are zero. -/
theorem C7_witness :
    K9.align d9 1 (1 / 10000)
      = .ok (K9.roundOrientation (initLoopState d9)) :=
  (C7_zero_offsets K9 d9 1 (1 / 10000)
    (K9.roundOrientation (initLoopState d9)) rfl rfl).2 rfl rfl rfl

/-- A copy of a kinematic whose three concentrator tilt deviations are
replaced by arbitrary values, every other field unchanged. -/
def setConcentratorTilts (k : RigidBody) (te tn tu : ℝ) : RigidBody :=
  { k with deviation_parameters :=
      { k.deviation_parameters with
          concentrator_tilt_e := te,
          concentrator_tilt_n := tn,
          concentrator_tilt_u := tu } }

/-- A loop round never reads the concentrator tilt deviations. -/
lemma alignRound_setTilts (k : RigidBody) (te tn tu eps : ℝ)
    (s : LoopState) :
    (setConcentratorTilts k te tn tu).alignRound eps s
      = k.alignRound eps s := rfl

/-- The whole loop never reads the concentrator tilt deviations. -/
lemma alignLoop_setTilts (k : RigidBody) (te tn tu eps : ℝ) :
    ∀ (n : Nat) (s : LoopState),
      (setConcentratorTilts k te tn tu).alignLoop eps n s
        = k.alignLoop eps n s := by
  intro n
  induction n with
  | zero => intro s; rfl
  | succ m ih =>
    intro s
    simp only [RigidBody.alignLoop, alignRound_setTilts, ih]

/-- C8: the three concentrator tilt deviation parameters never influence
`align` or `align_surface`: changing only those three fields leaves the
returned orientation and the aligned points and normals identical, because
the forward chain's mount stage applies only the concentrator translations
and no rotation. -/
theorem C8_concentrator_tilts_unused (k : RigidBody) (te tn tu : ℝ)
    (d : Vec4) (n : Nat) (eps : ℝ) (pts nrms : List Vec4) :
    (setConcentratorTilts k te tn tu).align d n eps = k.align d n eps
    ∧ (setConcentratorTilts k te tn tu).align_surface d pts nrms
      = k.align_surface d pts nrms := by
  have halign : ∀ (n2 : Nat) (eps2 : ℝ),
      (setConcentratorTilts k te tn tu).align d n2 eps2
        = k.align d n2 eps2 := by
    intro n2 eps2
    unfold RigidBody.align RigidBody.alignRun
    rw [alignLoop_setTilts]
    rfl
  refine ⟨halign n eps, ?_⟩
  unfold RigidBody.align_surface
  rw [halign 2 (1 / 10000)]

/-- C9 counterexample: in the spec's concrete scenario the first iteration's
desired normal degenerates — its norm is 0, not 1, because the half-vector is
normalized by a zero divisor — and the analytically solved joint-1 angle of
that iteration is `-π` (its magnitude exceeds 1), so the outputs are neither
finite-and-unit nor are both joint angles approximately 0 (in the source's
float semantics the `0/0` makes every downstream quantity NaN). -/
theorem C9_counterexample :
    norm4 (K9.roundDesired S9) = 0
    ∧ (K9.roundNextSteps S9).1 = -Real.pi
    ∧ 1 < |(K9.roundNextSteps S9).1| := by
  refine ⟨?_, K9_solve_j1, ?_⟩
  · rw [K9_roundDesired, norm4]
    simp
  · rw [K9_solve_j1, abs_neg, abs_of_pos Real.pi_pos]
    linarith [Real.pi_gt_three]

/-- C9 (amended): in the concrete scenario — position `(0,0,0)`, aim point
`(0,100,0)`, identity actuators, zero deviations and offsets, incident ray
`(0,-1,0)` — the first iteration's normalized incident ray `(0,-1,0,0)` and
reflect vector `(0,1,0,0)` cancel exactly, so the desired-normal computation
normalizes the zero vector (a division by zero: NaN, i.e. non-finite outputs,
in the source's float semantics) instead of converging to normal `(0,1,0)`
with joint angles near 0; the solved joint-2 angle of that round is 0. -/
theorem C9_degenerate_scenario :
    S9.roundRay = ![0, -1, 0, 0]
    ∧ K9.roundReflect S9 = ![0, 1, 0, 0]
    ∧ S9.roundRay + K9.roundReflect S9 = 0
    ∧ K9.roundDesired S9 = 0
    ∧ (K9.roundNextSteps S9).2 = 0 :=
  ⟨S9_roundRay, K9_roundReflect d9, K9_cancel, K9_roundDesired, K9_solve_j2⟩

/-- C10: constructing a `RigidBody` mutates the caller-supplied deviation and
offset objects in place (every tensor field becomes its device-moved copy);
omitted parameters resolve to the fixed default objects created once at
function-definition time, so all instances constructed without explicit
parameter objects share — and repeatedly mutate — the same two defaults. -/
theorem C10_init_mutation (h : InitHeap) (da oa : Nat)
    (device d1 d2 : String) :
    ((RigidBody.init h (some da) (some oa) device).1.deviations da
        = (h.deviations da).toDevice device
      ∧ (RigidBody.init h (some da) (some oa) device).1.offsets oa
        = (h.offsets oa).toDevice device)
    ∧ (RigidBody.init h none none device).2
        = (defaultDeviationsAddr, defaultOffsetsAddr)
    ∧ ((RigidBody.init (RigidBody.init h none none d1).1 none none d2).1.deviations
          defaultDeviationsAddr
        = ((h.deviations defaultDeviationsAddr).toDevice d1).toDevice d2)
    ∧ ((RigidBody.init (RigidBody.init h none none d1).1 none none d2).1.offsets
          defaultOffsetsAddr
        = ((h.offsets defaultOffsetsAddr).toDevice d1).toDevice d2) := by
  refine ⟨⟨?_, ?_⟩, rfl, ?_, ?_⟩ <;>
    simp [RigidBody.init, Function.update_same]
